import Mathlib

/-!
# Verification of the channel-moderation bot (HandleChannelsBot)

A shallow embedding of `src/HandleChannelsBot.py` together with proofs about
its moderation pipeline: URL extraction, domain policy, the liveness probe,
the warning ledger, the message store and the periodic link-check cycle.

Python dictionaries are modelled as insertion-ordered association lists,
Python sets as lists with insert-if-absent/filter-out operations, and the
outcomes of external Telegram/network calls as an explicit environment of
oracles.  Uncaught Python exceptions are modelled by an `Option PyErr`
result component: `some e` means the handler aborted with exception `e`,
and the state returned with it is the (mutated) global state at the point
the exception escaped, exactly as with Python module-level globals.
-/

/-! ## Association lists (Python `dict`: insertion-ordered, keyed update) -/

/-- Lookup in an insertion-ordered association list (Python `d[k]` / `k in d`). -/
def alookup {κ ν : Type} [DecidableEq κ] : List (κ × ν) → κ → Option ν
  | [], _ => none
  | (k₁, v₁) :: t, k => if k₁ = k then some v₁ else alookup t k

/-- Keyed update (Python `d[k] = v`): replace in place, or append a new entry. -/
def aset {κ ν : Type} [DecidableEq κ] : List (κ × ν) → κ → ν → List (κ × ν)
  | [], k, v => [(k, v)]
  | (k₁, v₁) :: t, k, v => if k₁ = k then (k₁, v) :: t else (k₁, v₁) :: aset t k v

/-- Keyed removal (Python `del d[k]`): drop the entry for `k`. -/
def aerase {κ ν : Type} [DecidableEq κ] : List (κ × ν) → κ → List (κ × ν)
  | [], _ => []
  | (k₁, v₁) :: t, k => if k₁ = k then t else (k₁, v₁) :: aerase t k

/-! ## Prefix matching on character lists -/

/-- `headIs pre cs = some r` iff `cs = pre ++ r`: literal-prefix matching, the
building block for the regular-expression fragments used by the bot. -/
def headIs : List Char → List Char → Option (List Char)
  | [], cs => some cs
  | _ :: _, [] => none
  | p :: ps, c :: cs => if c = p then headIs ps cs else none

/-! ## Constants from the source -/

/-- `ALLOWED_DOMAINS = ['blndev.com']` -/
def ALLOWED_DOMAINS : List String := ["blndev.com"]

/-- `WARNING_THRESHOLD = 3` -/
def WARNING_THRESHOLD : Nat := 3

/-! ## `extract_urls`

`re.findall(r'http[s]?://(?:[a-zA-Z]|[0-9]|[$-_@.&+]|[!*\\(\\),]|(?:%[0-9a-fA-F][0-9a-fA-F]))+', text)`

The alternation inside `(?:...)+` is a union of single-character classes
plus the three-character alternative `%hh`.  Every character of `%hh`
(`%` = 0x25 and the hexadecimal digits) already belongs to the
single-character classes (`%` and the punctuation lie in the range
`$`–`_` = 0x24–0x5F, which also covers `@ . & +` and the digits), so the
language of the repeated group is exactly the set of nonempty runs over
the union of the single-character classes, captured by `isUrlChar`. -/

/-- One character of the URL-token body: `[a-zA-Z]`, `[0-9]`, the range
`[$-_]` (which contains `@ . & + %` and the hex digits), and `! * \ ( ) ,`. -/
def isUrlChar (c : Char) : Bool :=
  ('a' ≤ c && c ≤ 'z') || ('A' ≤ c && c ≤ 'Z') || ('0' ≤ c && c ≤ '9') ||
  ('$' ≤ c && c ≤ '_') || c == '!' || c == '*' || c == '\\' || c == '(' || c == ')' || c == ','

/-- The characters of `https://`. -/
def httpsL : List Char := ['h', 't', 't', 'p', 's', ':', '/', '/']

/-- The characters of `http://`. -/
def httpL : List Char := ['h', 't', 't', 'p', ':', '/', '/']

/-- The characters of `www.`. -/
def wwwL : List Char := ['w', 'w', 'w', '.']

/-- Match the scheme part `http[s]?://` at the head of the input, returning the
consumed characters and the remainder.  Greedy on the optional `s`, with the
backtracking behaviour of the Python `re` engine. -/
def matchScheme (cs : List Char) : Option (List Char × List Char) :=
  match headIs httpsL cs with
  | some r => some (httpsL, r)
  | none =>
    match headIs httpL cs with
    | some r => some (httpL, r)
    | none => none

/-- Attempt the full URL-token regex at the head of the input: the scheme
followed by a nonempty greedy run of `isUrlChar` characters.  Returns the
matched token and the rest of the input. -/
def tryMatch (cs : List Char) : Option (List Char × List Char) :=
  match matchScheme cs with
  | none => none
  | some (sch, r) =>
    let body := r.takeWhile isUrlChar
    if body.isEmpty then none
    else some (sch ++ body, r.drop body.length)

/-- Fuel-indexed scanner: `re.findall` over the input, returning the list of
matched tokens in left-to-right order.  The fuel (instantiated with the input
length) only bounds the recursion; see `scanUrlsF_congr`. -/
def scanUrlsF : Nat → List Char → List (List Char)
  | 0, _ => []
  | _ + 1, [] => []
  | fuel + 1, c :: cs =>
    match tryMatch (c :: cs) with
    | some (tok, rest) => tok :: scanUrlsF fuel rest
    | none => scanUrlsF fuel cs

/-- The non-overlapping left-to-right scan of `re.findall` for the URL-token
regex: try a match at each position; on success continue after the match. -/
def scanUrls (l : List Char) : List (List Char) := scanUrlsF l.length l

/-- `extract_urls(text)`: all URL tokens of the text, in order.  A total pure
function; `re.findall` never raises on any input string. -/
def extract_urls (text : String) : List String :=
  (scanUrls text.data).map String.mk

/-! ## `is_allowed_domain`

`domain = re.findall(r'https?://(?:www\.)?([^/]+)', url)[0]` inside
`try: ... except: return False`: the first (leftmost) match's capture group,
with `IndexError` on no match mapped to `False` by the bare `except`. -/

/-- The capture group `(?:www\.)?([^/]+)` after the scheme, with the regex
engine's backtracking: greedily try to consume `www.`; if no `[^/]+` host
follows, retry without consuming `www.`; fail if the host would be empty. -/
def hostAfterScheme (r : List Char) : Option (List Char) :=
  match headIs wwwL r with
  | some t =>
    let h := t.takeWhile (fun c => c ≠ '/')
    if h.isEmpty then
      let h₂ := r.takeWhile (fun c => c ≠ '/')
      if h₂.isEmpty then none else some h₂
    else some h
  | none =>
    let h := r.takeWhile (fun c => c ≠ '/')
    if h.isEmpty then none else some h

/-- First match of `https?://(?:www\.)?([^/]+)` in the input (the scan of
`re.findall`, of which the source takes element `[0]`): `none` when the regex
matches nowhere. -/
def findHost : List Char → Option (List Char)
  | [] => none
  | c :: cs =>
    match matchScheme (c :: cs) with
    | some (_, r) =>
      match hostAfterScheme r with
      | some h => some h
      | none => findHost cs
    | none => findHost cs

/-- Substring test (Python `needle in hay`). -/
def hasSub : List Char → List Char → Bool
  | [], needle => needle.isEmpty
  | c :: t, needle => (headIs needle (c :: t)).isSome || hasSub t needle

/-- `is_allowed_domain(url)`: allowed iff the parsed host contains one of
`ALLOWED_DOMAINS` as a substring; `False` when host parsing fails (the
`[0]` on an empty `findall` result raises `IndexError`, swallowed by the
bare `except`). -/
def is_allowed_domain (url : String) : Bool :=
  match findHost url.data with
  | none => false
  | some host => ALLOWED_DOMAINS.any (fun a => hasSub host a.data)

/-! ## `check_url` -/

/-- Outcome of the HEAD request issued by `check_url`: an HTTP response with a
status code and optional `Location` header, or any transport
error/timeout/exception. -/
inductive ProbeOutcome where
  | response (status : Nat) (location : Option String)
  | failure (message : String)
deriving DecidableEq

/-- `check_url`: `(is_valid, error_message)`.  403 → invalid "403 Forbidden";
301 → invalid naming the redirect target (`Location` header, defaulting to
`unknown`); every other status and every exception → valid (fail-open). -/
def check_url (p : ProbeOutcome) : Bool × String :=
  match p with
  | .response status loc =>
    if status = 403 then (false, "403 Forbidden")
    else if status = 301 then (false, "301 Moved Permanently to " ++ loc.getD "unknown")
    else (true, "")
  | .failure _ => (true, "")

/-! ## Data model: updates, stored messages, global state, environment

The module-level globals of the source (`USER_WARNINGS`, `MONITORED_CHATS`,
`ACTIVE_LINKS`, `chat_messages`) form `BotState`.  Keys of `chat_messages`
(and hence of `ACTIVE_LINKS`, which inherits them in `check_all_links`) are
`Option Int` because the handler's local `chat_id` starts as Python `None`
and is inserted as the literal key `None` when an update carries neither a
channel post nor a message. -/

/-- An uncaught Python exception escaping a handler. -/
inductive PyErr where
  | attributeError
  | keyError
  | typeError
  | telegramError
deriving DecidableEq

/-- Outward-visible operations actually submitted to the Telegram API (a
coroutine that is created but never awaited performs no operation and is
not recorded). -/
inductive Act where
  | visitChat (chat : Option Int)
  | banAttempt (chat : Option Int) (user : Int)
  | sendAttempt (chat : Option Int) (text : String)
  | warnMsgDelete (chat : Option Int)
deriving DecidableEq

/-- The fields of a `telegram.Message` the handlers read. -/
structure TgMessage where
  chat_id : Int
  chat_type : String
  message_id : Int
  from_user : Option Int
  text : Option String
  caption : Option String
  date : Int
deriving DecidableEq

/-- `update.my_chat_member`: the new member record for the bot account. -/
structure ChatMemberUpd where
  new_user_id : Int
  new_status : String
deriving DecidableEq

/-- The fields of a `telegram.Update` the handlers read. -/
structure Update where
  channel_post : Option TgMessage
  message : Option TgMessage
  my_chat_member : Option ChatMemberUpd
  effective_chat_id : Int
deriving DecidableEq

/-- One entry of `chat_messages[chat_id]`: the dict literal appended by
`message_store_handler`. -/
structure StoredMsg where
  message_id : Int
  user_id : Int
  message_text : Option String
  timestamp : Int
deriving DecidableEq

/-- The module-level mutable globals. -/
structure BotState where
  chat_messages : List (Option Int × List StoredMsg)
  USER_WARNINGS : List (Int × Nat)
  MONITORED_CHATS : List Int
  ACTIVE_LINKS : List (Option Int × List (String × String))
deriving DecidableEq

/-- Oracles for the outcomes of external calls: the bot's own id, the
retention cutoff computed from the current time, the network probe behind
`check_url`, and success/failure of each Telegram operation (`false` means
the call raises `TelegramError`). -/
structure Env where
  botId : Int
  cutoff : Int
  probe : String → ProbeOutcome
  sendOk : Option Int → String → Bool
  banOk : Option Int → Int → Bool

/-- Result of running a handler: the global state when it returned or when
the exception escaped, the Telegram operations performed, and the uncaught
exception if any. -/
structure StepOut where
  st : BotState
  tr : List Act
  er : Option PyErr
deriving DecidableEq

/-! ## `warn_user` -/

/-- Text of the removal notice sent on a ban. -/
def removalText : String :=
  "User has been removed after " ++ toString WARNING_THRESHOLD ++ " warnings."

/-- Text of the warning notice for the `n`-th violation. -/
def warnText (n : Nat) : String :=
  "⚠️ Warning " ++ toString n ++ "/" ++ toString WARNING_THRESHOLD

/-- `warn_user(user_id, chat_id)`: increment (or create at 1) the user's
warning count; at or past `WARNING_THRESHOLD` try ban + removal notice and
only then delete the ledger entry (all inside one `try`, so a failing ban or
notice skips the deletion); below the threshold send a warning notice and
delete it after the 30 s sleep.  All Telegram failures are `TelegramError`
and are caught, so `warn_user` never raises. -/
def warn_user (env : Env) (user_id : Int) (chat_id : Option Int) (s : BotState) :
    BotState × List Act :=
  let newCount :=
    match alookup s.USER_WARNINGS user_id with
    | none => 1
    | some n => n + 1
  let s₁ : BotState := { s with USER_WARNINGS := aset s.USER_WARNINGS user_id newCount }
  if WARNING_THRESHOLD ≤ newCount then
    if env.banOk chat_id user_id then
      if env.sendOk chat_id removalText then
        ({ s₁ with USER_WARNINGS := aerase s₁.USER_WARNINGS user_id },
         [.banAttempt chat_id user_id, .sendAttempt chat_id removalText])
      else
        -- the removal notice raised after a successful ban: `del` is skipped
        (s₁, [.banAttempt chat_id user_id, .sendAttempt chat_id removalText])
    else
      -- `ban_chat_member` raised: `del USER_WARNINGS[user_id]` is skipped
      (s₁, [.banAttempt chat_id user_id])
  else
    if env.sendOk chat_id (warnText newCount) then
      -- `warning_msg.delete()` may raise a TelegramError, which is caught
      (s₁, [.sendAttempt chat_id (warnText newCount), .warnMsgDelete chat_id])
    else
      (s₁, [.sendAttempt chat_id (warnText newCount)])

/-! ## `handle_chat_join` -/

/-- Greeting posted when the bot is added to a chat. -/
def helloText : String :=
  "👋 Hello! I\x27m now monitoring this chat for link safety and domain compliance."

/-- `handle_chat_join`: on a `my_chat_member` update about the bot itself,
`administrator`/`member` adds the chat to `MONITORED_CHATS` and greets it
(the greeting may raise a `TelegramError`, which is not caught here, but the
set insertion has already happened); `left` discards the chat from
`MONITORED_CHATS`. -/
def handle_chat_join (env : Env) (u : Update) (s : BotState) : StepOut :=
  match u.my_chat_member with
  | none => ⟨s, [], none⟩
  | some mcm =>
    if mcm.new_user_id = env.botId then
      if mcm.new_status = "administrator" ∨ mcm.new_status = "member" then
        let s₁ : BotState :=
          { s with MONITORED_CHATS :=
              if u.effective_chat_id ∈ s.MONITORED_CHATS then s.MONITORED_CHATS
              else s.MONITORED_CHATS ++ [u.effective_chat_id] }
        if env.sendOk (some u.effective_chat_id) helloText then
          ⟨s₁, [.sendAttempt (some u.effective_chat_id) helloText], none⟩
        else
          ⟨s₁, [.sendAttempt (some u.effective_chat_id) helloText], some .telegramError⟩
      else if mcm.new_status = "left" then
        ⟨{ s with MONITORED_CHATS := s.MONITORED_CHATS.filter (fun c => c ≠ u.effective_chat_id) },
         [], none⟩
      else ⟨s, [], none⟩
    else ⟨s, [], none⟩

/-! ## `handle_message` (the live Moderation Dispatcher) -/

/-- `handle_message`: picks `update.channel_post` or `update.message`; with no
message it returns.  Otherwise it executes
`urls = await extract_urls(message.text or message.caption or "")`:
`extract_urls` is a plain function returning a `list`, and awaiting a list
object raises `TypeError`, so the per-URL loop of lines 253-273 is never
reached and the handler never completes for any message.  In particular it
performs no write to any global (notably not to `ACTIVE_LINKS`). -/
def handle_message (_env : Env) (u : Update) (s : BotState) : StepOut :=
  match (match u.channel_post with | some cp => some cp | none => u.message) with
  | none => ⟨s, [], none⟩
  | some _ => ⟨s, [], some .typeError⟩

/-! ## `message_store_handler` and the message store -/

/-- `clean_up_old_messages(chat_id)`: replace the chat's list with the
messages no older than the retention cutoff (`datetime.now() - 7 days`,
supplied as `env.cutoff`).  Reading a missing key raises `KeyError`. -/
def clean_up_old_messages (env : Env) (chat_id : Option Int)
    (cm : List (Option Int × List StoredMsg)) :
    List (Option Int × List StoredMsg) × Option PyErr :=
  match alookup cm chat_id with
  | none => (cm, some .keyError)
  | some msgs => (aset cm chat_id (msgs.filter (fun m => env.cutoff ≤ m.timestamp)), none)

/-- `if chat_id not in chat_messages: chat_messages[chat_id] = []` -/
def ensureChatKey (chat_id : Option Int) (cm : List (Option Int × List StoredMsg)) :
    List (Option Int × List StoredMsg) :=
  if (alookup cm chat_id).isSome then cm else cm ++ [(chat_id, [])]

/-- `message_store_handler`: channel posts only ensure the key exists (their
text is never appended); private chats return immediately; group/supergroup
messages execute `chat_messages[chat_id].append({...})` *before* the
`if chat_id not in chat_messages` guard, so a chat id not yet present raises
`KeyError`.  An update with neither a channel post nor a message leaves the
local `chat_id` as `None` and inserts the literal key `None`.  The final
pickle dump touches no global state. -/
def message_store_handler (env : Env) (u : Update) (s : BotState) :
    BotState × Option PyErr :=
  match u.channel_post with
  | some cp =>
    let cm₁ := ensureChatKey (some cp.chat_id) s.chat_messages
    match clean_up_old_messages env (some cp.chat_id) cm₁ with
    | (cm₂, e) => ({ s with chat_messages := cm₂ }, e)
  | none =>
    match u.message with
    | some m =>
      if m.chat_type = "private" then (s, none)
      else
        match m.from_user with
        | none => (s, some .attributeError)  -- `update.message.from_user.id`
        | some uid =>
          match alookup s.chat_messages (some m.chat_id) with
          | none => (s, some .keyError)      -- `chat_messages[chat_id].append(...)`
          | some msgs =>
            let entry : StoredMsg :=
              { message_id := m.message_id, user_id := uid,
                message_text := m.text, timestamp := m.date }
            let cm₁ := aset s.chat_messages (some m.chat_id) (msgs ++ [entry])
            -- the key now exists, so the `not in` guard is a no-op
            match clean_up_old_messages env (some m.chat_id) cm₁ with
            | (cm₂, e) => ({ s with chat_messages := cm₂ }, e)
    | none =>
      let cm₁ := ensureChatKey none s.chat_messages
      match clean_up_old_messages env none cm₁ with
      | (cm₂, e) => ({ s with chat_messages := cm₂ }, e)

/-! ## `check_all_links` (the periodic Link Health Checker)

The values iterated by `for chat_id, messages in chat_messages.items()` are
the dict literals stored by `message_store_handler`; the loop body accesses
them both as dicts (`message['message_id']`) and as `telegram.Message`
objects (`message.user_id`, `message.delete()`, `message.text`).  The
attribute accesses raise `AttributeError` on a dict, and the surrounding
`try` blocks only catch `TelegramError`, so those exceptions escape. -/

/-- Build the summary body for one chat. -/
def buildSummary (links : List (String × String)) : String :=
  "📊 Active Links Summary:\n\n" ++
    String.join (links.map (fun p => "🔗 " ++ p.2 ++ "\n" ++ p.1 ++ "\n\n"))

/-- Process one URL of one stored message (lines 301-331).

* Disallowed domain: `context.bot.delete_message(...)` is not awaited (the
  coroutine is discarded, so no deletion is submitted and nothing raises);
  then `message.user_id` raises `AttributeError` (a dict has no attributes),
  which the `except TelegramError` clause does not catch — the cycle aborts
  and `warn_user` on line 308 is never reached.
* Allowed domain, probe invalid: `await message.delete()` raises
  `AttributeError` for the same reason.
* Allowed domain, probe valid: the guard first inserts
  `ACTIVE_LINKS[chat_id] = {}` when the key is missing, then the assignment's
  right-hand side `message.text` raises `AttributeError` before the link is
  stored. -/
def processLink (env : Env) (chat_id : Option Int) (url : String) (s : BotState) : StepOut :=
  if ¬ is_allowed_domain url then
    ⟨s, [], some .attributeError⟩
  else
    match check_url (env.probe url) with
    | (false, _) => ⟨s, [], some .attributeError⟩
    | (true, _) =>
      let s₁ : BotState :=
        if (alookup s.ACTIVE_LINKS chat_id).isSome then s
        else { s with ACTIVE_LINKS := s.ACTIVE_LINKS ++ [(chat_id, [])] }
      ⟨s₁, [], some .attributeError⟩

/-- The inner `for url in urls` loop: an uncaught exception propagates. -/
def processLinkList (env : Env) (chat_id : Option Int) :
    List String → BotState → StepOut
  | [], s => ⟨s, [], none⟩
  | url :: rest, s =>
    let r := processLink env chat_id url s
    match r.er with
    | some e => ⟨r.st, r.tr, some e⟩
    | none =>
      let r₂ := processLinkList env chat_id rest r.st
      ⟨r₂.st, r.tr ++ r₂.tr, r₂.er⟩

/-- One stored message: the `"nsfw"` check reads `message['message_text']`
(`"nsfw" in None` raises `TypeError` when the stored text is `None`); its
delete is an unawaited coroutine inside a `try`, hence a no-op; then
`urls = extract_urls(message["message_text"])` and the URL loop. -/
def processStoredMsg (env : Env) (chat_id : Option Int) (m : StoredMsg) (s : BotState) :
    StepOut :=
  match m.message_text with
  | none => ⟨s, [], some .typeError⟩
  | some txt => processLinkList env chat_id (extract_urls txt) s

/-- The `for message in messages` loop. -/
def processMsgList (env : Env) (chat_id : Option Int) :
    List StoredMsg → BotState → StepOut
  | [], s => ⟨s, [], none⟩
  | m :: rest, s =>
    let r := processStoredMsg env chat_id m s
    match r.er with
    | some e => ⟨r.st, r.tr, some e⟩
    | none =>
      let r₂ := processMsgList env chat_id rest r.st
      ⟨r₂.st, r.tr ++ r₂.tr, r₂.er⟩

/-- The outer `for chat_id, messages in chat_messages.items()` loop; the
`logger.info("Checking messages in chat ...")` at the top of each iteration
is recorded as `Act.visitChat`. -/
def processChats (env : Env) :
    List (Option Int × List StoredMsg) → BotState → StepOut
  | [], s => ⟨s, [], none⟩
  | (chat_id, msgs) :: rest, s =>
    let r := processMsgList env chat_id msgs s
    match r.er with
    | some e => ⟨r.st, .visitChat chat_id :: r.tr, some e⟩
    | none =>
      let r₂ := processChats env rest r.st
      ⟨r₂.st, (.visitChat chat_id :: r.tr) ++ r₂.tr, r₂.er⟩

/-- The summary loop (lines 335-343): one send per chat with a nonempty link
map; each send failure is a `TelegramError` caught by the per-chat `try`. -/
def sendSummaries (env : Env) :
    List (Option Int × List (String × String)) → List Act
  | [] => []
  | (chat_id, links) :: rest =>
    if links.isEmpty then sendSummaries env rest
    else .sendAttempt chat_id (buildSummary links) :: sendSummaries env rest

/-- `check_all_links`: scan every chat of `chat_messages`; if the scan loop
raised, the exception escapes before the summary block.  Otherwise the outer
`try` runs the summary loop (whose only failure mode, a `TelegramError` from
`send_message`, is caught by the inner `try`) and then unconditionally
executes `ACTIVE_LINKS.clear()`. -/
def check_all_links (env : Env) (s : BotState) : StepOut :=
  let r := processChats env s.chat_messages s
  match r.er with
  | some e => ⟨r.st, r.tr, some e⟩
  | none =>
    ⟨{ r.st with ACTIVE_LINKS := [] },
     r.tr ++ sendSummaries env r.st.ACTIVE_LINKS, none⟩

/-! ## Token/gap vocabulary for the `extract_urls` characterisation -/

/-- Does the input begin with the four characters `http` (the common start of
both scheme alternatives)? -/
def startsHttp (l : List Char) : Bool :=
  match l with
  | a :: b :: c :: d :: _ => a == 'h' && b == 't' && c == 't' && d == 'p'
  | _ => false

/-- No position of the text begins with `http`: such a gap can never start a
URL-token match. -/
def httpFree : List Char → Bool
  | [] => true
  | c :: t => !(startsHttp (c :: t)) && httpFree t

/-- The continuation cannot extend a greedy token body: empty, or starting
with a character outside the token alphabet. -/
def sepOK : List Char → Bool
  | [] => true
  | c :: _ => !(isUrlChar c)

/-- A syntactically valid URL token of the extraction grammar: the scheme
`http[s]?://` followed by a nonempty run of `isUrlChar` characters. -/
def isUrlTokenB (u : List Char) : Bool :=
  match matchScheme u with
  | none => false
  | some (_, r) => !r.isEmpty && r.all isUrlChar

/-- Interleave a leading gap with token/gap pairs:
`assembleC g0 [(u1,g1),...,(un,gn)] = g0 ++ u1 ++ g1 ++ ... ++ un ++ gn`. -/
def assembleC : List Char → List (List Char × List Char) → List Char
  | g0, [] => g0
  | g0, (u, g) :: ps => g0 ++ u ++ assembleC g ps

/-- Well-formed token/gap chain: every token is a URL token, every gap is
`http`-free, every gap separates (its first character is outside the token
alphabet), and only the final gap may be empty. -/
def chainOKB : List (List Char × List Char) → Bool
  | [] => true
  | (u, g) :: ps =>
    isUrlTokenB u && httpFree g &&
      (match g, ps with
       | [], [] => true
       | [], _ :: _ => false
       | c :: _, _ => !(isUrlChar c)) && chainOKB ps

/-- Is the action a ban request? -/
def isBanAct : Act → Bool
  | .banAttempt _ _ => true
  | _ => false

/-! ## Concrete data used by the witnesses and counterexamples -/

/-- Environment in which every external operation succeeds. -/
def envTrue : Env :=
  { botId := 99, cutoff := 0, probe := fun _ => .failure "timeout",
    sendOk := fun _ _ => true, banOk := fun _ _ => true }

/-- Environment in which every `send_message` raises `TelegramError`. -/
def envSendFail : Env :=
  { botId := 99, cutoff := 0, probe := fun _ => .failure "timeout",
    sendOk := fun _ _ => false, banOk := fun _ _ => true }

/-- Environment in which `ban_chat_member` raises `TelegramError`. -/
def envBanFail : Env :=
  { botId := 99, cutoff := 0, probe := fun _ => .failure "timeout",
    sendOk := fun _ _ => true, banOk := fun _ _ => false }

/-- The empty global state. -/
def stEmpty : BotState :=
  { chat_messages := [], USER_WARNINGS := [], MONITORED_CHATS := [], ACTIVE_LINKS := [] }

/-- A harmless stored message without URLs. -/
def mHello : StoredMsg :=
  { message_id := 11, user_id := 8, message_text := some "hello", timestamp := 5 }

/-- A stored message whose URL fails the domain policy. -/
def mEvil : StoredMsg :=
  { message_id := 10, user_id := 7, message_text := some "see https://evil.example/x", timestamp := 5 }

/-- State for the C1 witness: one URL-free chat and a leftover registry entry. -/
def stC1 : BotState :=
  { chat_messages := [(some 1, [mHello])], USER_WARNINGS := [], MONITORED_CHATS := [1],
    ACTIVE_LINKS := [(some 1, [("https://blndev.com/a", "a page")])] }

/-- State for C2: chat 5 is monitored and has one stored message. -/
def stC2 : BotState :=
  { chat_messages := [(some 5, [mHello])], USER_WARNINGS := [], MONITORED_CHATS := [5],
    ACTIVE_LINKS := [] }

/-- A `my_chat_member` update: the bot (id 99) left chat 5. -/
def uLeft : Update :=
  { channel_post := none, message := none,
    my_chat_member := some { new_user_id := 99, new_status := "left" },
    effective_chat_id := 5 }

/-- A group message carrying an allowed URL. -/
def mC5 : TgMessage :=
  { chat_id := 1, chat_type := "group", message_id := 20, from_user := some 7,
    text := some "https://blndev.com/a", caption := none, date := 0 }

/-- The update wrapping `mC5`. -/
def uC5 : Update :=
  { channel_post := none, message := some mC5, my_chat_member := none,
    effective_chat_id := 1 }

/-- State for C6: the first chat holds a message with a disallowed URL, the
second chat holds a URL-free message. -/
def stC6 : BotState :=
  { chat_messages := [(some 1, [mEvil]), (some 2, [mHello])], USER_WARNINGS := [],
    MONITORED_CHATS := [1, 2], ACTIVE_LINKS := [] }

/-- A group text message from a chat the store has never seen. -/
def mC10 : TgMessage :=
  { chat_id := 3, chat_type := "group", message_id := 30, from_user := some 7,
    text := some "hi", caption := none, date := 0 }

/-- The update wrapping `mC10`. -/
def uC10 : Update :=
  { channel_post := none, message := some mC10, my_chat_member := none,
    effective_chat_id := 3 }

/-- A ledger in which user 7 already has two warnings. -/
def stTwoWarnings : BotState :=
  { chat_messages := [], USER_WARNINGS := [(7, 2)], MONITORED_CHATS := [], ACTIVE_LINKS := [] }

/-! ## Lemmas and claim theorems -/

theorem alookup_aset_self {κ ν : Type} [DecidableEq κ] (l : List (κ × ν)) (k : κ) (v : ν) :
    alookup (aset l k v) k = some v := by
  induction l with
  | nil => simp [aset, alookup]
  | cons h t ih =>
    obtain ⟨k₁, v₁⟩ := h
    by_cases hk : k₁ = k
    · simp [aset, alookup, hk]
    · simp [aset, alookup, hk, ih]
theorem aset_aset {κ ν : Type} [DecidableEq κ] (l : List (κ × ν)) (k : κ) (v w : ν) :
    aset (aset l k v) k w = aset l k w := by
  induction l with
  | nil => simp [aset]
  | cons h t ih =>
    obtain ⟨k₁, v₁⟩ := h
    by_cases hk : k₁ = k
    · simp [aset, hk]
    · simp [aset, hk, ih]
theorem aerase_aset_of_not_mem {κ ν : Type} [DecidableEq κ] (l : List (κ × ν)) (k : κ) (v : ν)
    (h : alookup l k = none) : aerase (aset l k v) k = l := by
  induction l with
  | nil => simp [aset, aerase]
  | cons hd t ih =>
    obtain ⟨k₁, v₁⟩ := hd
    by_cases hk : k₁ = k
    · simp [alookup, hk] at h
    · simp [alookup, hk] at h
      simp [aset, aerase, hk, ih h]
theorem alookup_none_of_mem_absent {κ ν : Type} [DecidableEq κ]
    (l : List (κ × ν)) (k : κ) (h : alookup l k = none) (p : κ × ν) (hp : p ∈ l) :
    p.1 ≠ k := by
  induction l with
  | nil => cases hp
  | cons hd t ih =>
    obtain ⟨k₁, v₁⟩ := hd
    by_cases hk : k₁ = k
    · simp [alookup, hk] at h
    · simp [alookup, hk] at h
      rcases List.mem_cons.mp hp with rfl | hmem
      · exact hk
      · exact ih h hmem
theorem alookup_isSome_mem {κ ν : Type} [DecidableEq κ] (l : List (κ × ν)) (k : κ)
    (h : (alookup l k).isSome = true) : ∃ v, (k, v) ∈ l := by
  induction l with
  | nil => simp [alookup] at h
  | cons hd t ih =>
    obtain ⟨k₁, v₁⟩ := hd
    by_cases hk : k₁ = k
    · exact ⟨v₁, by simp [hk]⟩
    · simp [alookup, hk] at h
      obtain ⟨v, hv⟩ := ih h
      exact ⟨v, List.mem_cons_of_mem _ hv⟩
theorem headIs_some_iff (pre : List Char) :
    ∀ cs r, headIs pre cs = some r ↔ cs = pre ++ r := by
  induction pre with
  | nil => intro cs r; simp [headIs, eq_comm]
  | cons p ps ih =>
    intro cs r
    cases cs with
    | nil => simp [headIs]
    | cons c cs' =>
      by_cases hc : c = p
      · simp [headIs, hc, ih cs' r]
      · simp [headIs, hc]
theorem matchScheme_eq_append {cs sch r : List Char} (h : matchScheme cs = some (sch, r)) :
    cs = sch ++ r := by
  unfold matchScheme at h
  split at h
  · rename_i r₁ h₁
    simp only [Option.some.injEq, Prod.mk.injEq] at h
    obtain ⟨rfl, rfl⟩ := h
    exact (headIs_some_iff _ _ _).mp h₁
  · split at h
    · rename_i r₁ h₁
      simp only [Option.some.injEq, Prod.mk.injEq] at h
      obtain ⟨rfl, rfl⟩ := h
      exact (headIs_some_iff _ _ _).mp h₁
    · cases h
theorem matchScheme_sch {cs sch r : List Char} (h : matchScheme cs = some (sch, r)) :
    sch = httpsL ∨ sch = httpL := by
  unfold matchScheme at h
  split at h
  · rename_i r₁ h₁
    simp only [Option.some.injEq, Prod.mk.injEq] at h
    exact Or.inl h.1.symm
  · split at h
    · rename_i r₁ h₁
      simp only [Option.some.injEq, Prod.mk.injEq] at h
      exact Or.inr h.1.symm
    · cases h
theorem matchScheme_len_lt {cs sch r : List Char} (h : matchScheme cs = some (sch, r)) :
    r.length < cs.length := by
  have hcs := matchScheme_eq_append h
  have hsch := matchScheme_sch h
  subst hcs
  rcases hsch with rfl | rfl <;> simp [httpsL, httpL] <;> omega
theorem tryMatch_len_lt {cs tok rest : List Char} (h : tryMatch cs = some (tok, rest)) :
    rest.length < cs.length := by
  unfold tryMatch at h
  cases hm : matchScheme cs with
  | none => rw [hm] at h; cases h
  | some p =>
    obtain ⟨sch, r⟩ := p
    rw [hm] at h
    by_cases hb : (r.takeWhile isUrlChar).isEmpty
    · simp [hb] at h
    · simp [hb] at h
      have hr := matchScheme_len_lt hm
      have : rest.length ≤ r.length := by
        rw [← h.2]
        simp [List.length_drop]
      omega
theorem scanUrlsF_congr : ∀ (f₁ f₂ : Nat) (l : List Char),
    l.length ≤ f₁ → l.length ≤ f₂ → scanUrlsF f₁ l = scanUrlsF f₂ l := by
  intro f₁
  induction f₁ with
  | zero =>
    intro f₂ l h₁ _
    have : l = [] := List.eq_nil_of_length_eq_zero (Nat.le_zero.mp h₁)
    subst this
    cases f₂ <;> simp [scanUrlsF]
  | succ f ih =>
    intro f₂ l h₁ h₂
    cases l with
    | nil => cases f₂ <;> simp [scanUrlsF]
    | cons c cs =>
      cases f₂ with
      | zero => simp at h₂
      | succ f₂' =>
        have h₁' : cs.length ≤ f := by simp at h₁; omega
        have h₂' : cs.length ≤ f₂' := by simp at h₂; omega
        simp only [scanUrlsF]
        cases hm : tryMatch (c :: cs) with
        | some p =>
          obtain ⟨tok, rest⟩ := p
          have hlen : rest.length ≤ cs.length := by
            have h' := tryMatch_len_lt hm
            simp at h'; omega
          show tok :: scanUrlsF f rest = tok :: scanUrlsF f₂' rest
          rw [ih f₂' rest (le_trans hlen h₁') (le_trans hlen h₂')]
        | none =>
          show scanUrlsF f cs = scanUrlsF f₂' cs
          exact ih f₂' cs h₁' h₂'
theorem scanUrls_cons_some {c : Char} {cs tok rest : List Char}
    (h : tryMatch (c :: cs) = some (tok, rest)) :
    scanUrls (c :: cs) = tok :: scanUrls rest := by
  have hlen := tryMatch_len_lt h
  unfold scanUrls
  simp only [List.length_cons, scanUrlsF, h]
  rw [scanUrlsF_congr cs.length rest.length rest (by simp at hlen; omega) le_rfl]
theorem scanUrls_cons_none {c : Char} {cs : List Char} (h : tryMatch (c :: cs) = none) :
    scanUrls (c :: cs) = scanUrls cs := by
  unfold scanUrls
  simp only [List.length_cons, scanUrlsF, h]

theorem hasSub_iff (hay needle : List Char) :
    hasSub hay needle = true ↔ ∃ pre post, hay = pre ++ needle ++ post := by
  induction hay with
  | nil =>
    simp only [hasSub, List.isEmpty_iff]
    constructor
    · rintro rfl; exact ⟨[], [], rfl⟩
    · rintro ⟨pre, post, hp⟩
      have h' := hp.symm
      rw [List.append_assoc, List.append_eq_nil] at h'
      obtain ⟨-, h''⟩ := h'
      rw [List.append_eq_nil] at h''
      exact h''.1
  | cons c t ih =>
    simp only [hasSub, Bool.or_eq_true, Option.isSome_iff_exists]
    constructor
    · rintro (⟨r, hr⟩ | h)
      · rw [headIs_some_iff] at hr
        exact ⟨[], r, by simpa using hr⟩
      · obtain ⟨pre, post, hp⟩ := ih.mp h
        exact ⟨c :: pre, post, by simp [hp]⟩
    · rintro ⟨pre, post, hp⟩
      cases pre with
      | nil =>
        left
        exact ⟨post, (headIs_some_iff _ _ _).mpr (by simpa using hp)⟩
      | cons p pre' =>
        right
        apply ih.mpr
        simp only [List.cons_append, List.cons.injEq] at hp
        exact ⟨pre', post, hp.2⟩

theorem startsHttp_eq_true_iff (s : List Char) :
    startsHttp s = true ↔ ∃ t, s = 'h' :: 't' :: 't' :: 'p' :: t := by
  cases s with
  | nil => simp [startsHttp]
  | cons a s₁ =>
    cases s₁ with
    | nil => simp [startsHttp]
    | cons b s₂ =>
      cases s₂ with
      | nil => simp [startsHttp]
      | cons c s₃ =>
        cases s₃ with
        | nil => simp [startsHttp]
        | cons d s₄ =>
          simp only [startsHttp, Bool.and_eq_true, beq_iff_eq, List.cons.injEq]
          constructor
          · rintro ⟨⟨⟨rfl, rfl⟩, rfl⟩, rfl⟩
            exact ⟨s₄, rfl, rfl, rfl, rfl, rfl⟩
          · rintro ⟨t, rfl, rfl, rfl, rfl, rfl⟩
            exact ⟨⟨⟨rfl, rfl⟩, rfl⟩, rfl⟩

theorem matchScheme_none_of_not_startsHttp (cs : List Char) (h : startsHttp cs = false) :
    matchScheme cs = none := by
  cases hm : matchScheme cs with
  | none => rfl
  | some p =>
    obtain ⟨sch, r⟩ := p
    exfalso
    have hcs := matchScheme_eq_append hm
    rcases matchScheme_sch hm with rfl | rfl <;> subst hcs <;>
      simp [startsHttp, httpsL, httpL] at h

theorem startsHttp_token_append (u x : List Char) (hu : isUrlTokenB u = true) :
    startsHttp (u ++ x) = true := by
  unfold isUrlTokenB at hu
  cases hm : matchScheme u with
  | none => rw [hm] at hu; cases hu
  | some p =>
    obtain ⟨sch, r⟩ := p
    have hcs := matchScheme_eq_append hm
    rcases matchScheme_sch hm with rfl | rfl <;> subst hcs <;>
      simp [startsHttp, httpsL, httpL]

theorem token_cons {u : List Char} (hu : isUrlTokenB u = true) :
    ∃ t, u = 'h' :: t := by
  unfold isUrlTokenB at hu
  cases hm : matchScheme u with
  | none => rw [hm] at hu; cases hu
  | some p =>
    obtain ⟨sch, r⟩ := p
    have hcs := matchScheme_eq_append hm
    rcases matchScheme_sch hm with rfl | rfl <;> subst hcs
    · exact ⟨'t' :: 't' :: 'p' :: 's' :: ':' :: '/' :: '/' :: r, by simp [httpsL]⟩
    · exact ⟨'t' :: 't' :: 'p' :: ':' :: '/' :: '/' :: r, by simp [httpL]⟩

theorem headIs_httpsL_httpL (x : List Char) : headIs httpsL (httpL ++ x) = none := by
  simp [httpsL, httpL, headIs]

theorem matchScheme_append {u sch r : List Char} (s : List Char)
    (h : matchScheme u = some (sch, r)) :
    matchScheme (u ++ s) = some (sch, r ++ s) := by
  unfold matchScheme at h ⊢
  split at h
  · rename_i r₁ h₁
    simp only [Option.some.injEq, Prod.mk.injEq] at h
    obtain ⟨rfl, rfl⟩ := h
    have hu : u = httpsL ++ r₁ := (headIs_some_iff _ _ _).mp h₁
    subst hu
    have h₂ : headIs httpsL ((httpsL ++ r₁) ++ s) = some (r₁ ++ s) :=
      (headIs_some_iff _ _ _).mpr (by simp)
    rw [h₂]
  · split at h
    · rename_i r₁ h₁
      simp only [Option.some.injEq, Prod.mk.injEq] at h
      obtain ⟨rfl, rfl⟩ := h
      have hu : u = httpL ++ r₁ := (headIs_some_iff _ _ _).mp h₁
      subst hu
      have h₂ : headIs httpL ((httpL ++ r₁) ++ s) = some (r₁ ++ s) :=
        (headIs_some_iff _ _ _).mpr (by simp)
      have h₃ : headIs httpsL ((httpL ++ r₁) ++ s) = none := by
        rw [List.append_assoc]
        exact headIs_httpsL_httpL (r₁ ++ s)
      rw [h₃, h₂]
    · cases h

theorem startsHttp_gap_cons (c : Char) (g s : List Char)
    (h₁ : startsHttp (c :: g) = false)
    (hs : s = [] ∨ startsHttp s = true) :
    startsHttp (c :: (g ++ s)) = false := by
  rcases hs with rfl | hs'
  · simpa using h₁
  · obtain ⟨t, rfl⟩ := (startsHttp_eq_true_iff s).mp hs'
    cases g with
    | nil =>
      simp [startsHttp, show (('h' : Char) == 't') = false from by decide]
    | cons b g₂ =>
      cases g₂ with
      | nil =>
        simp [startsHttp, show (('h' : Char) == 't') = false from by decide]
      | cons d g₃ =>
        cases g₃ with
        | nil =>
          simp [startsHttp, show (('h' : Char) == 'p') = false from by decide]
        | cons e g₄ =>
          simpa [startsHttp] using h₁

theorem scanUrls_gap (g s : List Char) (hg : httpFree g = true)
    (hs : s = [] ∨ startsHttp s = true) :
    scanUrls (g ++ s) = scanUrls s := by
  induction g with
  | nil => simp
  | cons c g' ih =>
    simp only [httpFree, Bool.and_eq_true, Bool.not_eq_true'] at hg
    obtain ⟨h₁, h₂⟩ := hg
    have hsh : startsHttp (c :: (g' ++ s)) = false := startsHttp_gap_cons c g' s h₁ hs
    have hms : matchScheme (c :: (g' ++ s)) = none := matchScheme_none_of_not_startsHttp _ hsh
    have htm : tryMatch (c :: (g' ++ s)) = none := by unfold tryMatch; rw [hms]
    rw [List.cons_append, scanUrls_cons_none htm]
    exact ih h₂

theorem takeWhile_all_sep (r s : List Char) (hr : ∀ c ∈ r, isUrlChar c = true)
    (hs : sepOK s = true) :
    (r ++ s).takeWhile isUrlChar = r ∧ (r ++ s).drop r.length = s := by
  refine ⟨?_, ?_⟩
  · induction r with
    | nil =>
      cases s with
      | nil => rfl
      | cons c t =>
        simp only [sepOK, Bool.not_eq_true'] at hs
        simp [List.takeWhile_cons, hs]
    | cons a r' ih =>
      have ha : isUrlChar a = true := hr a (List.mem_cons_self a r')
      simp only [List.cons_append, List.takeWhile_cons, ha, if_true]
      rw [ih (fun c hc => hr c (List.mem_cons_of_mem _ hc))]
  · induction r with
    | nil => simp
    | cons a r' ih => simp [ih (fun c hc => hr c (List.mem_cons_of_mem _ hc))]

theorem tryMatch_token (u s : List Char) (hu : isUrlTokenB u = true) (hs : sepOK s = true) :
    tryMatch (u ++ s) = some (u, s) := by
  unfold isUrlTokenB at hu
  cases hm : matchScheme u with
  | none => rw [hm] at hu; cases hu
  | some p =>
    obtain ⟨sch, r⟩ := p
    rw [hm] at hu
    simp only [Bool.and_eq_true, Bool.not_eq_true'] at hu
    obtain ⟨hne, hall⟩ := hu
    have hcs := matchScheme_eq_append hm
    have hms₂ := matchScheme_append s hm
    have htw := takeWhile_all_sep r s (fun c hc => List.all_eq_true.mp hall c hc) hs
    unfold tryMatch
    rw [hms₂]
    simp only [htw.1, hne, htw.2, Bool.false_eq_true, if_false]
    rw [hcs]

theorem sepOK_assembleC (g : List Char) (ps : List (List Char × List Char))
    (hcond : (match g, ps with
              | [], [] => true
              | [], _ :: _ => false
              | c :: _, _ => !(isUrlChar c)) = true) :
    sepOK (assembleC g ps) = true := by
  cases g with
  | nil =>
    cases ps with
    | nil => rfl
    | cons p ps' => simp at hcond
  | cons c t =>
    have hc : isUrlChar c = false := by simpa using hcond
    cases ps with
    | nil => simp [assembleC, sepOK, hc]
    | cons p ps' =>
      obtain ⟨u, g'⟩ := p
      simp [assembleC, sepOK, hc]

theorem scanUrls_assemble (g0 : List Char) (ps : List (List Char × List Char))
    (h0 : httpFree g0 = true) (hps : chainOKB ps = true) :
    scanUrls (assembleC g0 ps) = ps.map Prod.fst := by
  induction ps generalizing g0 with
  | nil =>
    have h := scanUrls_gap g0 [] h0 (Or.inl rfl)
    simpa [assembleC] using h
  | cons p ps' ih =>
    obtain ⟨u, g⟩ := p
    simp only [chainOKB, Bool.and_eq_true] at hps
    obtain ⟨⟨⟨hu, hg⟩, hcond⟩, hps'⟩ := hps
    have hsep : sepOK (assembleC g ps') = true := sepOK_assembleC g ps' hcond
    have h₁ : scanUrls (g0 ++ (u ++ assembleC g ps')) = scanUrls (u ++ assembleC g ps') :=
      scanUrls_gap g0 _ h0 (Or.inr (startsHttp_token_append u _ hu))
    have h₂ : tryMatch (u ++ assembleC g ps') = some (u, assembleC g ps') :=
      tryMatch_token u _ hu hsep
    obtain ⟨t, hut⟩ := token_cons hu
    have h₂' : tryMatch ('h' :: (t ++ assembleC g ps')) = some ('h' :: t, assembleC g ps') := by
      rw [hut, List.cons_append] at h₂
      exact h₂
    calc scanUrls (assembleC g0 ((u, g) :: ps'))
        = scanUrls (g0 ++ (u ++ assembleC g ps')) := by
          simp [assembleC, List.append_assoc]
      _ = scanUrls (u ++ assembleC g ps') := h₁
      _ = u :: scanUrls (assembleC g ps') := by
          rw [hut, List.cons_append, scanUrls_cons_some h₂']
      _ = u :: ps'.map Prod.fst := by rw [ih g hg hps']
      _ = ((u, g) :: ps').map Prod.fst := rfl

theorem warn_user_first (env : Env) (u_id : Int) (c : Option Int) (s : BotState)
    (h0 : alookup s.USER_WARNINGS u_id = none) :
    (warn_user env u_id c s).1 = { s with USER_WARNINGS := aset s.USER_WARNINGS u_id 1 } ∧
    ∀ a ∈ (warn_user env u_id c s).2, isBanAct a = false := by
  unfold warn_user
  rw [h0]
  refine ⟨?_, ?_⟩ <;> cases hs : env.sendOk c (warnText 1) <;>
    simp [hs, WARNING_THRESHOLD, isBanAct]

theorem warn_user_below (env : Env) (u_id : Int) (c : Option Int) (s : BotState) (n : Nat)
    (hn : alookup s.USER_WARNINGS u_id = some n) (hlt : n + 1 < WARNING_THRESHOLD) :
    (warn_user env u_id c s).1 = { s with USER_WARNINGS := aset s.USER_WARNINGS u_id (n + 1) } ∧
    ∀ a ∈ (warn_user env u_id c s).2, isBanAct a = false := by
  simp only [warn_user, hn]
  rw [if_neg (show ¬ (WARNING_THRESHOLD ≤ n + 1) by omega)]
  refine ⟨?_, ?_⟩ <;> cases hs : env.sendOk c (warnText (n + 1)) <;>
    simp [hs, isBanAct]

theorem warn_user_ban_success (env : Env) (u_id : Int) (c : Option Int) (s : BotState) (n : Nat)
    (hn : alookup s.USER_WARNINGS u_id = some n) (hth : WARNING_THRESHOLD ≤ n + 1)
    (hban : env.banOk c u_id = true) (hsend : env.sendOk c removalText = true) :
    warn_user env u_id c s =
      ({ s with USER_WARNINGS := aerase (aset s.USER_WARNINGS u_id (n + 1)) u_id },
       [.banAttempt c u_id, .sendAttempt c removalText]) := by
  unfold warn_user
  rw [hn]
  rw [if_pos hth]
  simp [hban, hsend]

/-- Claim C3: starting from a clean ledger, the first two calls to `warn_user`
for a user signal no ban; the third invokes `ban_chat_member`, and (when the
ban and the removal notice succeed) the user's ledger entry is removed. -/
theorem warn_user_threshold_escalation (env : Env) (u_id : Int) (c : Option Int) (s : BotState)
    (h0 : alookup s.USER_WARNINGS u_id = none)
    (hban : env.banOk c u_id = true)
    (hsend : env.sendOk c removalText = true) :
    (∀ a ∈ (warn_user env u_id c s).2, isBanAct a = false) ∧
    (∀ a ∈ (warn_user env u_id c (warn_user env u_id c s).1).2, isBanAct a = false) ∧
    alookup ((warn_user env u_id c (warn_user env u_id c s).1).1).USER_WARNINGS u_id = some 2 ∧
    Act.banAttempt c u_id ∈
      (warn_user env u_id c ((warn_user env u_id c (warn_user env u_id c s).1).1)).2 ∧
    alookup
      ((warn_user env u_id c ((warn_user env u_id c (warn_user env u_id c s).1).1)).1).USER_WARNINGS
      u_id = none := by
  obtain ⟨e₁, t₁⟩ := warn_user_first env u_id c s h0
  have l₁ : alookup ((warn_user env u_id c s).1).USER_WARNINGS u_id = some 1 := by
    rw [e₁]; exact alookup_aset_self _ _ _
  obtain ⟨e₂, t₂⟩ := warn_user_below env u_id c _ 1 l₁ (by decide)
  have l₂ : alookup ((warn_user env u_id c (warn_user env u_id c s).1).1).USER_WARNINGS u_id
      = some 2 := by
    rw [e₂]; exact alookup_aset_self _ _ _
  have e₃ := warn_user_ban_success env u_id c _ 2 l₂ (by decide) hban hsend
  refine ⟨t₁, t₂, l₂, ?_, ?_⟩
  · rw [e₃]; simp
  · rw [e₃]
    show alookup (aerase (aset _ u_id 3) u_id) u_id = none
    rw [e₂, e₁]
    show alookup (aerase (aset (aset (aset s.USER_WARNINGS u_id 1) u_id 2) u_id 3) u_id) u_id
      = none
    rw [aset_aset, aset_aset, aerase_aset_of_not_mem _ _ _ h0, h0]

/-- Witness for C3 at a concrete ledger, chat and user. -/
theorem warn_user_threshold_escalation_witness :
    (∀ a ∈ (warn_user envTrue 7 (some 1) stEmpty).2, isBanAct a = false) ∧
    (∀ a ∈ (warn_user envTrue 7 (some 1) (warn_user envTrue 7 (some 1) stEmpty).1).2,
      isBanAct a = false) ∧
    alookup ((warn_user envTrue 7 (some 1)
      (warn_user envTrue 7 (some 1) stEmpty).1).1).USER_WARNINGS 7 = some 2 ∧
    Act.banAttempt (some 1) 7 ∈
      (warn_user envTrue 7 (some 1) ((warn_user envTrue 7 (some 1)
        (warn_user envTrue 7 (some 1) stEmpty).1).1)).2 ∧
    alookup ((warn_user envTrue 7 (some 1) ((warn_user envTrue 7 (some 1)
      (warn_user envTrue 7 (some 1) stEmpty).1).1)).1).USER_WARNINGS 7 = none :=
  warn_user_threshold_escalation envTrue 7 (some 1) stEmpty rfl rfl rfl

/-- Counterexample to C4 as stated: user 7 stands at two warnings; the third
violation decides a ban, the ban raises, and the ledger entry is *not*
removed — it remains at 3 instead of being reset. -/
theorem warn_user_ban_failure_counterexample :
    alookup ((warn_user envBanFail 7 (some 1) stTwoWarnings).1).USER_WARNINGS 7 = some 3 := by
  decide

/-- Claim C4 (amended): when the ban decided by the threshold-crossing call
fails, the failure is only logged but the counter reset does *not* take
effect — the `del` sits after the ban call inside the same `try`, so the
ledger keeps the incremented count. -/
theorem warn_user_ban_failure_keeps_count (env : Env) (u_id : Int) (c : Option Int)
    (s : BotState) (n : Nat)
    (hn : alookup s.USER_WARNINGS u_id = some n)
    (hth : WARNING_THRESHOLD ≤ n + 1)
    (hban : env.banOk c u_id = false) :
    alookup ((warn_user env u_id c s).1).USER_WARNINGS u_id = some (n + 1) ∧
    Act.banAttempt c u_id ∈ (warn_user env u_id c s).2 := by
  unfold warn_user
  rw [hn]
  rw [if_pos hth]
  simp [hban, alookup_aset_self]

/-- Witness for the amended C4. -/
theorem warn_user_ban_failure_keeps_count_witness :
    alookup ((warn_user envBanFail 7 (some 1) stTwoWarnings).1).USER_WARNINGS 7 = some (2 + 1) ∧
    Act.banAttempt (some 1) 7 ∈ (warn_user envBanFail 7 (some 1) stTwoWarnings).2 :=
  warn_user_ban_failure_keeps_count envBanFail 7 (some 1) stTwoWarnings 2 rfl (by decide) rfl

/-- Claim C8: `check_url` classifies 403 as invalid with reason
"403 Forbidden", 301 as invalid naming the redirect target, and every other
status as well as every transport failure as valid; being a total function
of the probe outcome it never propagates an exception. -/
theorem check_url_classification (status : Nat) (loc : Option String) (l msg : String)
    (h403 : status ≠ 403) (h301 : status ≠ 301) :
    check_url (.response 403 loc) = (false, "403 Forbidden") ∧
    check_url (.response 301 (some l)) = (false, "301 Moved Permanently to " ++ l) ∧
    check_url (.response 301 none) = (false, "301 Moved Permanently to unknown") ∧
    check_url (.response status loc) = (true, "") ∧
    check_url (.failure msg) = (true, "") := by
  refine ⟨rfl, rfl, rfl, ?_, rfl⟩
  simp only [check_url]
  rw [if_neg h403, if_neg h301]

/-- Witness for C8 at status 200 and a concrete location/error. -/
theorem check_url_classification_witness :
    check_url (.response 403 none) = (false, "403 Forbidden") ∧
    check_url (.response 301 (some "https://new.example/")) =
      (false, "301 Moved Permanently to " ++ "https://new.example/") ∧
    check_url (.response 301 none) = (false, "301 Moved Permanently to unknown") ∧
    check_url (.response 200 none) = (true, "") ∧
    check_url (.failure "timeout") = (true, "") :=
  check_url_classification 200 none "https://new.example/" "timeout" (by decide) (by decide)

/-- Claim C10: a group (or supergroup) text message arriving from a chat id
not yet present in `chat_messages` makes `message_store_handler` raise
`KeyError` — the append happens before the key-existence guard — so the
message is not recorded and the handler does not complete normally. -/
theorem message_store_first_group_message_keyerror
    (env : Env) (u : Update) (s : BotState) (m : TgMessage)
    (hcp : u.channel_post = none) (hm : u.message = some m)
    (htype : m.chat_type = "group" ∨ m.chat_type = "supergroup")
    (huser : (m.from_user).isSome = true)
    (habs : alookup s.chat_messages (some m.chat_id) = none) :
    message_store_handler env u s = (s, some PyErr.keyError) := by
  have hpriv : ¬ (m.chat_type = "private") := by
    rcases htype with h | h <;> rw [h] <;> decide
  cases hu : m.from_user with
  | none => rw [hu] at huser; simp at huser
  | some uid =>
    unfold message_store_handler
    rw [hcp, hm]
    simp [hpriv, hu, habs]

/-- Witness for C10: chat 3 was never seen before. -/
theorem message_store_first_group_message_keyerror_witness :
    message_store_handler envTrue uC10 stEmpty = (stEmpty, some PyErr.keyError) :=
  message_store_first_group_message_keyerror envTrue uC10 stEmpty mC10
    rfl rfl (Or.inl rfl) rfl rfl

/-- Claim C7: `is_allowed_domain` accepts a URL exactly when host extraction
succeeds and the extracted host contains the configured allowed domain
`blndev.com` as a substring; whenever no host can be parsed the verdict is
`false` (and, being a total function, the evaluator never raises). -/
theorem is_allowed_domain_spec (url : String) :
    (is_allowed_domain url = true ↔
      ∃ host pre post, findHost url.data = some host ∧
        host = pre ++ "blndev.com".data ++ post) ∧
    (findHost url.data = none → is_allowed_domain url = false) := by
  refine ⟨?_, ?_⟩
  · cases hf : findHost url.data with
    | none =>
      have hfal : is_allowed_domain url = false := by
        unfold is_allowed_domain; rw [hf]
      constructor
      · intro h; rw [hfal] at h; cases h
      · rintro ⟨host, pre, post, heq, -⟩; cases heq
    | some host =>
      have hval : is_allowed_domain url = hasSub host ("blndev.com".data) := by
        unfold is_allowed_domain
        rw [hf]
        simp [ALLOWED_DOMAINS]
      rw [hval]
      constructor
      · intro h
        obtain ⟨pre, post, hp⟩ := (hasSub_iff host ("blndev.com".data)).mp h
        exact ⟨host, pre, post, rfl, hp⟩
      · rintro ⟨host', pre, post, heq, hp⟩
        rw [Option.some.injEq] at heq
        subst heq
        exact (hasSub_iff host ("blndev.com".data)).mpr ⟨pre, post, hp⟩
  · intro h
    unfold is_allowed_domain
    rw [h]

/-- Witness for C7: a URL whose `www.`-stripped host is exactly the allowed
domain is accepted. -/
theorem is_allowed_domain_spec_witness :
    is_allowed_domain "https://www.blndev.com/x" = true :=
  (is_allowed_domain_spec "https://www.blndev.com/x").1.mpr
    ⟨"blndev.com".data, [], [], by decide, by decide⟩

/-- Claim C9: on any text assembled from an `http`-free leading gap and a
well-separated chain of URL tokens, `extract_urls` returns exactly those
tokens, one entry per token, in left-to-right order, preserving duplicates;
with an empty chain (a text with no URL token) it returns the empty list.
`extract_urls` is a total pure function, so no input raises. -/
theorem extract_urls_spec (g0 : List Char) (ps : List (List Char × List Char))
    (h0 : httpFree g0 = true) (hps : chainOKB ps = true) :
    extract_urls (String.mk (assembleC g0 ps)) = (ps.map Prod.fst).map String.mk := by
  unfold extract_urls
  rw [show (String.mk (assembleC g0 ps)).data = assembleC g0 ps from rfl]
  rw [scanUrls_assemble g0 ps h0 hps]

/-- Witness for C9: `"see http://x.com http://x.com"` — a duplicate token —
yields exactly the two occurrences in order. -/
theorem extract_urls_spec_witness :
    extract_urls (String.mk (assembleC "see ".data
        [("http://x.com".data, " ".data), ("http://x.com".data, "".data)])) =
      (([("http://x.com".data, " ".data), ("http://x.com".data, "".data)].map
        Prod.fst).map String.mk) :=
  extract_urls_spec "see ".data
    [("http://x.com".data, " ".data), ("http://x.com".data, "".data)]
    (by decide) (by decide)

/-- Claim C1: whenever `check_all_links` completes (no uncaught exception),
the Active-Link Registry is empty afterwards — `ACTIVE_LINKS.clear()` runs
unconditionally after the summary loop, whose send failures are caught
per chat. -/
theorem check_all_links_clears_registry (env : Env) (s : BotState)
    (h : (check_all_links env s).er = none) :
    (check_all_links env s).st.ACTIVE_LINKS = [] := by
  cases hr : (processChats env s.chat_messages s).er with
  | some e =>
    exfalso
    unfold check_all_links at h
    simp [hr] at h
  | none =>
    unfold check_all_links
    simp [hr]

/-- Witness for C1: a completed cycle over a URL-free store, with a leftover
registry entry and an environment in which every summary send *fails*,
still ends with an empty registry. -/
theorem check_all_links_clears_registry_witness :
    (check_all_links envSendFail stC1).er = none ∧
    (check_all_links envSendFail stC1).st.ACTIVE_LINKS = [] :=
  ⟨by decide, check_all_links_clears_registry envSendFail stC1 (by decide)⟩

/-- Counterexample to C5 as stated: a live group message containing only the
allowed URL `https://blndev.com/a` leaves the Active-Link Registry empty —
`handle_message` registers nothing (it raises `TypeError` at the
`await extract_urls(...)` step and contains no registry write at all). -/
theorem handle_message_no_registration_counterexample :
    extract_urls "https://blndev.com/a" = ["https://blndev.com/a"] ∧
    is_allowed_domain "https://blndev.com/a" = true ∧
    (handle_message envTrue uC5 stEmpty).st.ACTIVE_LINKS = [] ∧
    (handle_message envTrue uC5 stEmpty).er = some PyErr.typeError := by
  refine ⟨by decide, by decide, by decide, by decide⟩

/-- Claim C5 (amended): the live Moderation Dispatcher never writes the
Active-Link Registry (or any other global): `handle_message` leaves the
state unchanged on every update; the registry's only write site is inside
`check_all_links`. -/
theorem handle_message_leaves_state_unchanged (env : Env) (u : Update) (s : BotState) :
    (handle_message env u s).st = s := by
  unfold handle_message
  cases hcp : u.channel_post with
  | some cp => rfl
  | none =>
    cases hm2 : u.message with
    | some m => rfl
    | none => rfl

theorem processChats_visits (env : Env) :
    ∀ (l : List (Option Int × List StoredMsg)) (s : BotState),
      (processChats env l s).er = none →
      ∀ p ∈ l, Act.visitChat p.1 ∈ (processChats env l s).tr := by
  intro l
  induction l with
  | nil => intro s _ p hp; cases hp
  | cons q rest ih =>
    intro s h p hp
    obtain ⟨cid, msgs⟩ := q
    cases hr : (processMsgList env cid msgs s).er with
    | some e =>
      exfalso
      simp only [processChats, hr] at h
      cases h
    | none =>
      simp only [processChats, hr] at h ⊢
      rcases List.mem_cons.mp hp with rfl | hmem
      · exact List.mem_append_left _ (List.mem_cons_self _ _)
      · exact List.mem_append_right _ (ih _ h p hmem)

/-- Counterexample to C2 as stated: the bot leaves chat 5 (a `left`
membership event removes it from `MONITORED_CHATS`), yet the next
`check_all_links` cycle still visits chat 5, because the checker iterates
`chat_messages`, not the monitored-chat set. -/
theorem left_chat_visited_counterexample :
    (5 : Int) ∉ ((handle_chat_join envTrue uLeft stC2).st).MONITORED_CHATS ∧
    Act.visitChat (some 5) ∈
      (check_all_links envTrue (handle_chat_join envTrue uLeft stC2).st).tr := by
  refine ⟨by decide, by decide⟩

/-- Claim C2 (amended): a `left` membership event removes the chat from
`MONITORED_CHATS` only; `check_all_links` draws its chat list from the
message store `chat_messages`, which the event does not touch, so any chat
with stored messages is still visited by the next completed cycle even
after its removal from the monitored set. -/
theorem left_chat_still_visited (env : Env) (u : Update) (s : BotState) (c : Int)
    (hm : u.my_chat_member = some { new_user_id := env.botId, new_status := "left" })
    (hc : u.effective_chat_id = c)
    (hmsgs : (alookup ((handle_chat_join env u s).st).chat_messages (some c)).isSome = true)
    (hok : (check_all_links env (handle_chat_join env u s).st).er = none) :
    c ∉ ((handle_chat_join env u s).st).MONITORED_CHATS ∧
    Act.visitChat (some c) ∈ (check_all_links env (handle_chat_join env u s).st).tr := by
  have hj : (handle_chat_join env u s).st =
      { s with MONITORED_CHATS :=
          s.MONITORED_CHATS.filter (fun x => x ≠ u.effective_chat_id) } := by
    simp [handle_chat_join, hm,
      show ¬ (("left" : String) = "administrator" ∨ ("left" : String) = "member") from by decide]
  constructor
  · rw [hj, hc]
    simp
  · have her : (processChats env ((handle_chat_join env u s).st).chat_messages
        ((handle_chat_join env u s).st)).er = none := by
      cases hr : (processChats env ((handle_chat_join env u s).st).chat_messages
          ((handle_chat_join env u s).st)).er with
      | none => rfl
      | some e =>
        exfalso
        unfold check_all_links at hok
        simp [hr] at hok
    obtain ⟨v, hv⟩ := alookup_isSome_mem _ _ hmsgs
    have hin := processChats_visits env _ _ her (some c, v) hv
    unfold check_all_links
    simp only [her]
    exact List.mem_append_left _ hin

/-- Witness for the amended C2 at the concrete left-event scenario. -/
theorem left_chat_still_visited_witness :
    (5 : Int) ∉ ((handle_chat_join envTrue uLeft stC2).st).MONITORED_CHATS ∧
    Act.visitChat (some 5) ∈
      (check_all_links envTrue (handle_chat_join envTrue uLeft stC2).st).tr :=
  left_chat_still_visited envTrue uLeft stC2 5 rfl rfl (by decide) (by decide)

/-- Claim C6 (recording the code bug): one disallowed link in the first chat
makes the cycle die with an uncaught `AttributeError` (the stored message is
a dict, but the handler reads `message.user_id`): the second chat is never
visited, no summary step is reached, and not even the offending user is
warned — far from the per-link/per-chat isolation the specification
requires. -/
theorem check_all_links_aborts_on_first_bad_link :
    (check_all_links envTrue stC6).er = some PyErr.attributeError ∧
    Act.visitChat (some 1) ∈ (check_all_links envTrue stC6).tr ∧
    Act.visitChat (some 2) ∉ (check_all_links envTrue stC6).tr ∧
    (check_all_links envTrue stC6).st.USER_WARNINGS = [] := by
  refine ⟨by decide, by decide, by decide, by decide⟩
